import Mathlib

/-!
Verification of the due-reminder reconciliation and task/reminder subsystem of
the scalableProject repository (task-service, notification-service,
frontend-service), shallowly embedded in Lean 4.

Timestamps (`datetime.utcnow()` values) are modelled as natural numbers;
MongoDB ObjectIds as natural numbers; the MongoDB collections as Lean lists
in insertion order.  `update_one({"_id": i}, {"$set": ...})` is modelled as
updating the first list element with the matching id (ids are unique in
MongoDB, which the theorems assume explicitly where it matters).
-/

namespace ScalableProject

/-- `NotificationStatus` enum from notification-service/models/notification.py. -/
inductive NotificationStatus where
  | pending
  | sent
  | failed
  | cancelled
deriving DecidableEq, Repr

/-- `NotificationType` enum from notification-service/models/notification.py. -/
inductive NotificationType where
  | reminder
  | due_date
  | overdue
  | completion
deriving DecidableEq, Repr

/-- A reminder document as stored in `db.reminders`
(fields of `Reminder` in notification-service/models/notification.py). -/
structure Reminder where
  id : Nat
  task_id : String
  title : String
  message : String
  reminder_time : Nat
  task_due_date : Option Nat
  status : NotificationStatus
  created_at : Nat
  updated_at : Nat
  sent_at : Option Nat
deriving DecidableEq, Repr

/-- A notification document as stored in `db.notifications`
(fields of `Notification` in notification-service/models/notification.py).
Documents are only ever appended by the code modelled here, so the list
position serves as the unique `_id`. -/
structure NotificationRec where
  task_id : String
  title : String
  message : String
  notification_type : NotificationType
  status : NotificationStatus
  created_at : Nat
  sent_at : Option Nat
deriving DecidableEq, Repr

/-- The state owned by the notification service: the `reminders` and
`notifications` collections. -/
structure NotifStore where
  reminders : List Reminder
  notifications : List NotificationRec
deriving DecidableEq, Repr

/-- `db.reminders.update_one({"_id": i}, {"$set": ...})`: update the first
document whose `_id` matches (ids are unique in MongoDB). -/
def updateOneReminder (i : Nat) (f : Reminder → Reminder) : List Reminder → List Reminder
  | [] => []
  | r :: rs => if r.id = i then f r :: rs else r :: updateOneReminder i f rs

/-- The filter of the reconciler query in `check_due_reminders`:
`{"reminder_time": {"$lte": now}, "status": PENDING}`. -/
def isDue (now : Nat) (r : Reminder) : Bool :=
  decide (r.reminder_time ≤ now) && decide (r.status = NotificationStatus.pending)

/-- The notification document built and inserted for a due reminder in
`check_due_reminders`: same task_id/title/message, type `reminder`,
inserted directly with `status = SENT`, `created_at = now`, `sent_at = now`. -/
def mkDueNotification (now : Nat) (r : Reminder) : NotificationRec :=
  { task_id := r.task_id
    title := r.title
    message := r.message
    notification_type := NotificationType.reminder
    status := NotificationStatus.sent
    created_at := now
    sent_at := some now }

/-- The `$set` applied to a processed reminder in `check_due_reminders`:
`{"status": SENT, "sent_at": now, "updated_at": now}`. -/
def markSent (now : Nat) (r : Reminder) : Reminder :=
  { r with status := NotificationStatus.sent, sent_at := some now, updated_at := now }

/-- One iteration of the `for reminder_doc in due_reminders` loop of
`check_due_reminders`: insert the notification, then mark the reminder sent. -/
def processReminder (now : Nat) (st : NotifStore) (r : Reminder) : NotifStore :=
  { reminders := updateOneReminder r.id (markSent now) st.reminders
    notifications := st.notifications ++ [mkDueNotification now r] }

/-- `GET /reminders/due/check` (`check_due_reminders`): query the due pending
reminders, process each in turn, and count them.  Returns the final store
and `notifications_sent`. -/
def check_due_reminders (now : Nat) (st : NotifStore) : NotifStore × Nat :=
  let due := st.reminders.filter (isDue now)
  (due.foldl (processReminder now) st, due.length)

/-- A JSON value as far as the endpoints modelled here need one. -/
inductive JsonVal where
  | str (s : String)
  | num (n : Nat)
deriving DecidableEq, Repr

/-- The HTTP response body of `check_due_reminders`: the route returns
`{"message": f"Processed {notifications_sent} due reminders"}`. -/
def check_due_reminders_response (now : Nat) (st : NotifStore) : List (String × JsonVal) :=
  [("message", JsonVal.str ("Processed " ++ toString (check_due_reminders now st).2
      ++ " due reminders"))]

/-- `markSent` leaves the document id unchanged. -/
lemma markSent_id (now : Nat) (r : Reminder) : (markSent now r).id = r.id := rfl

/-- The reminders component of the reconciler's fold is the fold of the
per-reminder `update_one` calls. -/
lemma foldl_processReminder_reminders (now : Nat) :
    ∀ (ds : List Reminder) (st : NotifStore),
      (ds.foldl (processReminder now) st).reminders
        = ds.foldl (fun l d => updateOneReminder d.id (markSent now) l) st.reminders
  | [], _ => rfl
  | d :: ds, st => by
      simp only [List.foldl_cons]
      exact foldl_processReminder_reminders now ds (processReminder now st d)

/-- The notifications component of the reconciler's fold: one notification is
appended per processed reminder, in order. -/
lemma foldl_processReminder_notifications (now : Nat) :
    ∀ (ds : List Reminder) (st : NotifStore),
      (ds.foldl (processReminder now) st).notifications
        = st.notifications ++ ds.map (mkDueNotification now)
  | [], _ => by simp
  | d :: ds, st => by
      simp only [List.foldl_cons, List.map_cons]
      rw [foldl_processReminder_notifications now ds (processReminder now st d)]
      simp [processReminder]

/-- Folding `update_one` calls whose target ids all differ from the head
element's id leaves the head element in place. -/
lemma foldl_updateOne_cons (now : Nat) :
    ∀ (ds : List Reminder) (x : Reminder) (acc : List Reminder),
      (∀ d ∈ ds, d.id ≠ x.id) →
      ds.foldl (fun l d => updateOneReminder d.id (markSent now) l) (x :: acc)
        = x :: ds.foldl (fun l d => updateOneReminder d.id (markSent now) l) acc
  | [], _, _, _ => rfl
  | d :: ds, x, acc, h => by
      simp only [List.foldl_cons]
      have hx : x.id ≠ d.id := fun e => h d (by simp) e.symm
      rw [show updateOneReminder d.id (markSent now) (x :: acc)
            = x :: updateOneReminder d.id (markSent now) acc by
          simp [updateOneReminder, hx]]
      exact foldl_updateOne_cons now ds x (updateOneReminder d.id (markSent now) acc)
        (fun e he => h e (by simp [he]))

/-- Core characterisation of the reconciler pass on the reminders collection:
when document ids are unique, it maps every due pending reminder to its
sent version and leaves every other document untouched. -/
lemma reconciler_reminders_map (now : Nat) :
    ∀ (rs : List Reminder), (rs.map Reminder.id).Nodup →
      (rs.filter (isDue now)).foldl
          (fun l d => updateOneReminder d.id (markSent now) l) rs
        = rs.map (fun r => if isDue now r then markSent now r else r)
  | [], _ => rfl
  | r :: rest, h => by
      rw [List.map_cons, List.nodup_cons] at h
      obtain ⟨hid, hnd⟩ := h
      have hne : ∀ d ∈ rest.filter (isDue now), d.id ≠ r.id := by
        intro d hd he
        exact hid (he ▸ List.mem_map_of_mem Reminder.id (List.mem_of_mem_filter hd))
      by_cases hdue : isDue now r
      · rw [List.filter_cons_of_pos hdue, List.foldl_cons]
        rw [show updateOneReminder r.id (markSent now) (r :: rest)
              = markSent now r :: rest by simp [updateOneReminder]]
        rw [foldl_updateOne_cons now _ (markSent now r) rest
            (fun d hd => by rw [markSent_id]; exact hne d hd)]
        rw [reconciler_reminders_map now rest hnd]
        simp [hdue]
      · rw [List.filter_cons_of_neg hdue]
        rw [foldl_updateOne_cons now _ r rest hne]
        rw [reconciler_reminders_map now rest hnd]
        simp [hdue]

/-- C1: one invocation of `check_due_reminders` processes exactly the
reminders with `status = pending` and `reminder_time ≤ now`: each such
reminder is transitioned to `sent` (status sent, `sent_at` and `updated_at`
set to now), every other reminder document is left exactly as it was, and
the pass counts exactly the due pending reminders. -/
theorem reconciler_exactly_due_pending (now : Nat) (st : NotifStore)
    (h : (st.reminders.map Reminder.id).Nodup) :
    (check_due_reminders now st).1.reminders
        = st.reminders.map (fun r => if isDue now r then markSent now r else r)
    ∧ (check_due_reminders now st).2 = (st.reminders.filter (isDue now)).length := by
  constructor
  · show ((st.reminders.filter (isDue now)).foldl (processReminder now) st).reminders = _
    rw [foldl_processReminder_reminders]
    exact reconciler_reminders_map now st.reminders h
  · rfl

/-- A concrete store with mixed reminders: one due pending, one pending but
not due, one already sent. -/
def exReminder1 : Reminder :=
  { id := 1, task_id := "t1", title := "a", message := "m", reminder_time := 5
    task_due_date := none, status := NotificationStatus.pending
    created_at := 0, updated_at := 0, sent_at := none }

def exReminder2 : Reminder :=
  { id := 2, task_id := "t2", title := "b", message := "m", reminder_time := 20
    task_due_date := none, status := NotificationStatus.pending
    created_at := 0, updated_at := 0, sent_at := none }

def exReminder3 : Reminder :=
  { id := 3, task_id := "t3", title := "c", message := "m", reminder_time := 5
    task_due_date := none, status := NotificationStatus.sent
    created_at := 0, updated_at := 0, sent_at := some 1 }

def exStore : NotifStore :=
  { reminders := [exReminder1, exReminder2, exReminder3], notifications := [] }

/-- Witness for C1 at the concrete mixed store and `now = 10`. -/
theorem reconciler_exactly_due_pending_witness :
    (exStore.reminders.map Reminder.id).Nodup
    ∧ ((check_due_reminders 10 exStore).1.reminders
          = exStore.reminders.map
              (fun r => if isDue 10 r then markSent 10 r else r)
        ∧ (check_due_reminders 10 exStore).2
            = (exStore.reminders.filter (isDue 10)).length) :=
  ⟨by decide, reconciler_exactly_due_pending 10 exStore (by decide)⟩

/-- C8: when no reminder satisfies `status = pending ∧ reminder_time ≤ now`,
a reconciliation pass returns count 0 and leaves the store exactly as it
was: no notification is inserted and no reminder document is modified. -/
theorem reconciler_idle_no_side_effects (now : Nat) (st : NotifStore)
    (h : ∀ r ∈ st.reminders, isDue now r = false) :
    check_due_reminders now st = (st, 0) := by
  have hnil : st.reminders.filter (isDue now) = [] := by
    rw [List.filter_eq_nil_iff]
    intro r hr
    simp [h r hr]
  simp [check_due_reminders, hnil]

/-- A store where no reminder is due at `now = 10`: one pending reminder in
the future and one already-sent reminder in the past. -/
def exStoreIdle : NotifStore :=
  { reminders := [exReminder2, exReminder3], notifications := [] }

/-- Witness for C8 at the concrete idle store and `now = 10`. -/
theorem reconciler_idle_no_side_effects_witness :
    (∀ r ∈ exStoreIdle.reminders, isDue 10 r = false)
    ∧ check_due_reminders 10 exStoreIdle = (exStoreIdle, 0) :=
  ⟨by decide, reconciler_idle_no_side_effects 10 exStoreIdle (by decide)⟩

/-- A store holding a single due pending reminder. -/
def exStoreOne : NotifStore :=
  { reminders := [exReminder1], notifications := [] }

/-- C3 counterexample: after processing a store with exactly one due
reminder, the response body of `GET /reminders/due/check` is
`{"message": "Processed 1 due reminders"}`; it carries no `processed_count`
key, so it is not of the form `{processed_count: n}`. -/
theorem reconciler_response_counterexample :
    check_due_reminders_response 10 exStoreOne
      = [("message", JsonVal.str "Processed 1 due reminders")]
    ∧ (check_due_reminders_response 10 exStoreOne).lookup "processed_count" = none := by
  constructor
  · rfl
  · rfl

/-- C3 amended: the reconciliation endpoint reports the number of reminders
processed in the pass only inside a human-readable message string,
`{"message": "Processed n due reminders"}` where `n` is the number of due
pending reminders; the body has no `processed_count` key. -/
theorem reconciler_response_message (now : Nat) (st : NotifStore) :
    check_due_reminders_response now st
      = [("message", JsonVal.str ("Processed "
            ++ toString (st.reminders.filter (isDue now)).length
            ++ " due reminders"))]
    ∧ (check_due_reminders_response now st).lookup "processed_count" = none := by
  refine ⟨rfl, ?_⟩
  simp [check_due_reminders_response, List.lookup]

/-- The `for` loop of `check_due_reminders` under a write-fault model: the
`db.reminders.update_one` write raises for every reminder whose id is in
`failIds`.  The loop body has no try/except in the source, so the exception
propagates out of the handler; `Except.error` carries the store state at the
moment of the raise (the failing reminder's notification insert has already
happened, its status update has not, and no later reminder is visited). -/
def processDueFaulty (failIds : List Nat) (now : Nat) :
    List Reminder → NotifStore → Nat → Except NotifStore (NotifStore × Nat)
  | [], st, n => Except.ok (st, n)
  | r :: rs, st, n =>
      let st1 : NotifStore :=
        { st with notifications := st.notifications ++ [mkDueNotification now r] }
      if r.id ∈ failIds then Except.error st1
      else processDueFaulty failIds now rs
        { st1 with reminders := updateOneReminder r.id (markSent now) st1.reminders }
        (n + 1)

/-- `check_due_reminders` under the write-fault model. -/
def check_due_reminders_faulty (failIds : List Nat) (now : Nat) (st : NotifStore) :
    Except NotifStore (NotifStore × Nat) :=
  processDueFaulty failIds now (st.reminders.filter (isDue now)) st 0

lemma processDueFaulty_error (failIds : List Nat) (now : Nat)
    (f : Reminder) (post : List Reminder) (hf : f.id ∈ failIds) :
    ∀ (pre : List Reminder) (st : NotifStore) (n : Nat),
      (∀ r ∈ pre, r.id ∉ failIds) →
      processDueFaulty failIds now (pre ++ f :: post) st n
        = Except.error
            { reminders := (pre.foldl (processReminder now) st).reminders
              notifications := (pre.foldl (processReminder now) st).notifications
                ++ [mkDueNotification now f] }
  | [], st, n, _ => by
      simp [processDueFaulty, hf]
  | p :: pre, st, n, hpre => by
      have hp : p.id ∉ failIds := hpre p (by simp)
      show processDueFaulty failIds now (p :: (pre ++ f :: post)) st n = _
      rw [show processDueFaulty failIds now (p :: (pre ++ f :: post)) st n
            = processDueFaulty failIds now (pre ++ f :: post)
                (processReminder now st p) (n + 1) by
          simp [processDueFaulty, hp, processReminder]]
      rw [processDueFaulty_error failIds now f post hf pre
          (processReminder now st p) (n + 1) (fun r hr => hpre r (by simp [hr]))]
      simp

/-- A second due pending reminder (id 2, due at `now = 10`). -/
def exReminderDue2 : Reminder :=
  { id := 2, task_id := "t2", title := "b", message := "m", reminder_time := 6
    task_due_date := none, status := NotificationStatus.pending
    created_at := 0, updated_at := 0, sent_at := none }

/-- C2 counterexample: a store with two due pending reminders, where the
status-update write for the first one (id 1) fails.  The pass aborts with
the exception: the other due reminder (id 2) is NOT processed — the error
state's reminders are exactly the original documents, both still pending —
and no count is returned. -/
theorem reconciler_fault_counterexample :
    check_due_reminders_faulty [1] 10
        { reminders := [exReminder1, exReminderDue2], notifications := [] }
      = Except.error
          { reminders := [exReminder1, exReminderDue2]
            notifications := [mkDueNotification 10 exReminder1] }
    ∧ isDue 10 exReminderDue2 = true
    ∧ exReminderDue2.status = NotificationStatus.pending := by
  refine ⟨rfl, by decide, rfl⟩

/-- C2 amended: if the post-processing store write for one due reminder
fails, the pass aborts at that reminder rather than continuing: due
reminders scanned before the failing one are fully processed, the failing
reminder's notification is inserted but its own document is not updated,
due reminders after it are not processed at all, and the endpoint returns
no count (the exception propagates out of the loop). -/
theorem reconciler_fault_aborts_batch (failIds : List Nat) (now : Nat)
    (st : NotifStore) (pre : List Reminder) (f : Reminder) (post : List Reminder)
    (hsplit : st.reminders.filter (isDue now) = pre ++ f :: post)
    (hpre : ∀ r ∈ pre, r.id ∉ failIds) (hf : f.id ∈ failIds) :
    check_due_reminders_faulty failIds now st
      = Except.error
          { reminders := (pre.foldl (processReminder now) st).reminders
            notifications := (pre.foldl (processReminder now) st).notifications
              ++ [mkDueNotification now f] } := by
  unfold check_due_reminders_faulty
  rw [hsplit]
  exact processDueFaulty_error failIds now f post hf pre st 0 hpre

/-- Witness for C2's amended theorem: the two-due-reminder store with the
first write failing, split as `pre = []`, `f` the failing reminder,
`post` the untouched remainder. -/
theorem reconciler_fault_aborts_batch_witness :
    ({ reminders := [exReminder1, exReminderDue2],
       notifications := [] } : NotifStore).reminders.filter (isDue 10)
        = [] ++ exReminder1 :: [exReminderDue2]
    ∧ (∀ r ∈ ([] : List Reminder), r.id ∉ [1])
    ∧ exReminder1.id ∈ [1]
    ∧ check_due_reminders_faulty [1] 10
          { reminders := [exReminder1, exReminderDue2], notifications := [] }
        = Except.error
            { reminders := (([] : List Reminder).foldl (processReminder 10)
                { reminders := [exReminder1, exReminderDue2],
                  notifications := [] }).reminders
              notifications := (([] : List Reminder).foldl (processReminder 10)
                { reminders := [exReminder1, exReminderDue2],
                  notifications := [] }).notifications
                ++ [mkDueNotification 10 exReminder1] } :=
  ⟨by decide, by decide, by decide,
    reconciler_fault_aborts_batch [1] 10
      { reminders := [exReminder1, exReminderDue2], notifications := [] }
      [] exReminder1 [exReminderDue2] (by decide) (by decide) (by decide)⟩

/-! ## Task service (task-service/models/task.py, task-service/routes/tasks.py) -/

/-- `TaskPriority` enum from task-service/models/task.py. -/
inductive TaskPriority where
  | low
  | medium
  | high
  | urgent
deriving DecidableEq, Repr

/-- `TaskStatus` enum from task-service/models/task.py. -/
inductive TaskStatus where
  | pending
  | in_progress
  | completed
  | cancelled
deriving DecidableEq, Repr

/-- A task document as stored in `db.tasks` (fields of `Task` in
task-service/models/task.py), after its ObjectId has been read back. -/
structure Task where
  id : String
  title : String
  description : Option String
  priority : TaskPriority
  category : Option String
  due_date : Option Nat
  reminder_enabled : Bool
  reminder_time : Option Nat
  status : TaskStatus
  created_at : Nat
  updated_at : Nat
  completed_at : Option Nat
deriving DecidableEq, Repr

/-- The request body of `POST /tasks` (`TaskCreate`). -/
structure TaskCreate where
  title : String
  description : Option String := none
  priority : TaskPriority := TaskPriority.medium
  category : Option String := none
  due_date : Option Nat := none
  reminder_enabled : Bool := false
  reminder_time : Option Nat := none
deriving DecidableEq, Repr

/-- The request body of `PUT /tasks/{id}` (`TaskUpdate`).  Pydantic's
`model_dump(exclude_unset=True)` distinguishes a field absent from the
request from one explicitly set, so every field is wrapped in an outer
`Option` meaning "present in the request"; nullable fields carry an inner
`Option` for an explicit null. -/
structure TaskUpdate where
  title : Option String := none
  description : Option (Option String) := none
  priority : Option TaskPriority := none
  category : Option (Option String) := none
  due_date : Option (Option Nat) := none
  reminder_enabled : Option Bool := none
  reminder_time : Option (Option Nat) := none
  status : Option TaskStatus := none
deriving DecidableEq, Repr

/-- The document built by `create_task`: the request fields plus
`created_at = updated_at = now` and `status = PENDING` (`completed_at`
is absent, i.e. null, on the parsed `Task`). -/
def createTaskRecord (now : Nat) (i : String) (tc : TaskCreate) : Task :=
  { id := i
    title := tc.title
    description := tc.description
    priority := tc.priority
    category := tc.category
    due_date := tc.due_date
    reminder_enabled := tc.reminder_enabled
    reminder_time := tc.reminder_time
    status := TaskStatus.pending
    created_at := now
    updated_at := now
    completed_at := none }

/-- The `$set` performed by `update_task`: every field present in
`model_dump(exclude_unset=True)` overwrites the stored value, plus
`updated_at = now`; `completed_at` is never part of the update. -/
def applyTaskUpdate (now : Nat) (u : TaskUpdate) (t : Task) : Task :=
  { t with
    title := u.title.getD t.title
    description := u.description.getD t.description
    priority := u.priority.getD t.priority
    category := u.category.getD t.category
    due_date := u.due_date.getD t.due_date
    reminder_enabled := u.reminder_enabled.getD t.reminder_enabled
    reminder_time := u.reminder_time.getD t.reminder_time
    status := u.status.getD t.status
    updated_at := now }

/-- The `$set` performed by `complete_task` (`PATCH /tasks/{id}/complete`):
unconditionally `status = COMPLETED`, `completed_at = now`,
`updated_at = now`. -/
def complete_task (now : Nat) (t : Task) : Task :=
  { t with
    status := TaskStatus.completed
    completed_at := some now
    updated_at := now }

/-- The JSON body POSTed to the notification service's `/reminders`
endpoint by `notify_reminder_service`. -/
structure ReminderPayload where
  task_id : String
  title : String
  message : String
  reminder_time : Nat
  task_due_date : Option Nat
deriving DecidableEq, Repr

/-- The request `notify_reminder_service` makes for a task, if any: the
guard is `if task.reminder_enabled and task.reminder_time:` (a datetime is
always truthy, so the second conjunct is "reminder_time is not None"), and
the body carries the task id, the derived title `"Reminder: {task.title}"`,
the derived message `"Task '{task.title}' is due soon"`, the reminder time,
and the task due date. -/
def bridgeRequest (t : Task) : Option ReminderPayload :=
  if t.reminder_enabled then
    match t.reminder_time with
    | some rt =>
        some { task_id := t.id
               title := "Reminder: " ++ t.title
               message := "Task '" ++ t.title ++ "' is due soon"
               reminder_time := rt
               task_due_date := t.due_date }
    | none => none
  else none

/-- Whether the outbound HTTP POST of the bridge succeeds or raises. -/
inductive BridgeOutcome where
  | success
  | failure (msg : String)
deriving DecidableEq, Repr

/-- `notify_reminder_service` under an explicit outcome for the HTTP call:
the whole call is wrapped in `try/except Exception`, so a failure is
converted into a printed log line and never propagates — the function is
total and returns only the attempted request and the optional log line. -/
def notify_reminder_service (o : BridgeOutcome) (t : Task) :
    Option ReminderPayload × Option String :=
  match bridgeRequest t with
  | none => (none, none)
  | some p =>
      match o with
      | BridgeOutcome.success => (some p, none)
      | BridgeOutcome.failure e =>
          (some p, some ("Failed to notify reminder service: " ++ e))

/-- Result of the `POST /tasks` handler: the task returned to the caller,
the bridge request that was attempted, and the bridge's log line. -/
structure CreateResult where
  task : Task
  request : Option ReminderPayload
  log : Option String
deriving DecidableEq, Repr

/-- `create_task` (`POST /tasks`): insert the document, read it back,
always invoke `notify_reminder_service` on it, and return the task —
the bridge outcome is never consulted. -/
def create_task (now : Nat) (i : String) (o : BridgeOutcome) (tc : TaskCreate) :
    CreateResult :=
  let t := createTaskRecord now i tc
  let r := notify_reminder_service o t
  { task := t, request := r.1, log := r.2 }

/-- Result of the `PUT /tasks/{id}` handler: the updated task, whether the
bridge was invoked, and the request it attempted if so. -/
structure UpdateResult where
  task : Task
  bridgeInvoked : Bool
  request : Option ReminderPayload
deriving DecidableEq, Repr

/-- `update_task` (`PUT /tasks/{id}`): apply the `$set`, read the task
back, and invoke the bridge only when `"reminder_enabled" in update_data
or "reminder_time" in update_data`. -/
def update_task (now : Nat) (o : BridgeOutcome) (u : TaskUpdate) (t : Task) :
    UpdateResult :=
  let t' := applyTaskUpdate now u t
  if u.reminder_enabled.isSome || u.reminder_time.isSome then
    let r := notify_reminder_service o t'
    { task := t', bridgeInvoked := true, request := r.1 }
  else
    { task := t', bridgeInvoked := false, request := none }

/-- A post-creation task operation routed through the task service. -/
inductive TaskOp where
  | complete (now : Nat)
  | update (now : Nat) (u : TaskUpdate)
deriving DecidableEq, Repr

/-- Apply one task operation to the stored document. -/
def applyOp (t : Task) : TaskOp → Task
  | TaskOp.complete now => complete_task now t
  | TaskOp.update now u => applyTaskUpdate now u t

/-- The spec's invariant: `completed_at` is non-null iff
`status = completed`. -/
def completedIffTimestamp (t : Task) : Prop :=
  t.status = TaskStatus.completed ↔ t.completed_at ≠ none

/-- Whether an operation leaves the `status` field out of its `$set`. -/
def statusUntouched : TaskOp → Bool
  | TaskOp.complete _ => true
  | TaskOp.update _ u => u.status.isNone

lemma completedIff_applyOp (t : Task) (op : TaskOp)
    (hop : statusUntouched op = true) (h : completedIffTimestamp t) :
    completedIffTimestamp (applyOp t op) := by
  cases op with
  | complete now =>
      simp [applyOp, complete_task, completedIffTimestamp]
  | update now u =>
      have hu : u.status = none := Option.isNone_iff_eq_none.mp hop
      simpa [applyOp, applyTaskUpdate, completedIffTimestamp, hu] using h

lemma completedIff_foldl :
    ∀ (ops : List TaskOp) (t : Task),
      (∀ op ∈ ops, statusUntouched op = true) →
      completedIffTimestamp t → completedIffTimestamp (ops.foldl applyOp t)
  | [], _, _, h => h
  | op :: ops, t, hops, h => by
      rw [List.foldl_cons]
      exact completedIff_foldl ops (applyOp t op)
        (fun o ho => hops o (by simp [ho]))
        (completedIff_applyOp t op (hops op (by simp)) h)

/-- C4 counterexample: completing an already-completed task a second time
(at time 2, after completion at time 1) DOES change `completed_at` from
`some 1` to `some 2`; and a `PUT` update whose `$set` contains
`status = completed` yields a task with `status = completed` but
`completed_at = none`, violating the claimed equivalence. -/
theorem completed_at_counterexample :
    (complete_task 2 (complete_task 1 (createTaskRecord 0 "a" { title := "T" }))).completed_at
        = some 2
    ∧ (complete_task 1 (createTaskRecord 0 "a" { title := "T" })).completed_at = some 1
    ∧ some 2 ≠ (some 1 : Option Nat)
    ∧ (applyTaskUpdate 3 { status := some TaskStatus.completed }
          (createTaskRecord 0 "a" { title := "T" })).status = TaskStatus.completed
    ∧ (applyTaskUpdate 3 { status := some TaskStatus.completed }
          (createTaskRecord 0 "a" { title := "T" })).completed_at = none :=
  ⟨rfl, rfl, by decide, rfl, rfl⟩

/-- C4 amended: creation leaves `completed_at` null; `complete_task`
establishes `status = completed` but always overwrites `completed_at` with
the current time (so a second completion moves it); `update_task` never
writes `completed_at` at all; consequently the equivalence
`status = completed ↔ completed_at ≠ null` is maintained exactly along
operation sequences whose updates do not set `status`. -/
theorem completed_at_invariant_scope (now : Nat) (i : String) (tc : TaskCreate)
    (ops : List TaskOp) (hops : ∀ op ∈ ops, statusUntouched op = true)
    (m : Nat) (u : TaskUpdate) (t : Task) :
    completedIffTimestamp (ops.foldl applyOp (createTaskRecord now i tc))
    ∧ (createTaskRecord now i tc).completed_at = none
    ∧ (complete_task m t).status = TaskStatus.completed
    ∧ (complete_task m t).completed_at = some m
    ∧ (applyTaskUpdate m u t).completed_at = t.completed_at := by
  refine ⟨?_, rfl, rfl, rfl, rfl⟩
  exact completedIff_foldl ops (createTaskRecord now i tc) hops
    (by simp [completedIffTimestamp, createTaskRecord])

/-- Witness for C4's amended theorem: create, rename, complete twice. -/
theorem completed_at_invariant_scope_witness :
    (∀ op ∈ [TaskOp.update 1 { title := some "U" }, TaskOp.complete 2,
        TaskOp.complete 3], statusUntouched op = true)
    ∧ (completedIffTimestamp
          ([TaskOp.update 1 { title := some "U" }, TaskOp.complete 2,
              TaskOp.complete 3].foldl applyOp (createTaskRecord 0 "a" { title := "T" }))
        ∧ (createTaskRecord 0 "a" { title := "T" }).completed_at = none
        ∧ (complete_task 5 (createTaskRecord 0 "a" { title := "T" })).status
            = TaskStatus.completed
        ∧ (complete_task 5 (createTaskRecord 0 "a" { title := "T" })).completed_at = some 5
        ∧ (applyTaskUpdate 5 {} (createTaskRecord 0 "a" { title := "T" })).completed_at
            = (createTaskRecord 0 "a" { title := "T" }).completed_at) :=
  ⟨by decide, completed_at_invariant_scope 0 "a" { title := "T" }
    [TaskOp.update 1 { title := some "U" }, TaskOp.complete 2, TaskOp.complete 3]
    (by decide) 5 {} (createTaskRecord 0 "a" { title := "T" })⟩

/-- The request component of the bridge never depends on the outcome. -/
lemma notify_request_eq (o : BridgeOutcome) (t : Task) :
    (notify_reminder_service o t).1 = bridgeRequest t := by
  cases hb : bridgeRequest t <;> cases o <;> simp [notify_reminder_service, hb]

/-- C5: task creation with `reminder_enabled = true` (and a reminder time,
so the bridge call is actually attempted) returns the created task even
when the downstream POST to the Reminder Store raises: the exception is
swallowed inside `notify_reminder_service`, and the handler's task result
is identical for every bridge outcome. -/
theorem create_task_bridge_isolation (now : Nat) (i : String) (tc : TaskCreate)
    (rt : Nat) (e : String) (h1 : tc.reminder_enabled = true)
    (h2 : tc.reminder_time = some rt) :
    (create_task now i (BridgeOutcome.failure e) tc).request.isSome = true
    ∧ (create_task now i (BridgeOutcome.failure e) tc).task = createTaskRecord now i tc
    ∧ ∀ o : BridgeOutcome,
        (create_task now i o tc).task
          = (create_task now i (BridgeOutcome.failure e) tc).task := by
  refine ⟨?_, rfl, fun o => rfl⟩
  show (notify_reminder_service (BridgeOutcome.failure e) (createTaskRecord now i tc)).1.isSome
      = true
  rw [notify_request_eq]
  simp [bridgeRequest, createTaskRecord, h1, h2]

/-- A concrete creation request with a reminder enabled at time 5. -/
def exTCReminder : TaskCreate :=
  { title := "T", reminder_enabled := true, reminder_time := some 5 }

/-- Witness for C5 at a concrete reminder-enabled creation request. -/
theorem create_task_bridge_isolation_witness :
    exTCReminder.reminder_enabled = true
    ∧ exTCReminder.reminder_time = some 5
    ∧ ((create_task 0 "a" (BridgeOutcome.failure "boom")
          exTCReminder).request.isSome = true
        ∧ (create_task 0 "a" (BridgeOutcome.failure "boom") exTCReminder).task
            = createTaskRecord 0 "a" exTCReminder
        ∧ ∀ o : BridgeOutcome,
            (create_task 0 "a" o exTCReminder).task
              = (create_task 0 "a" (BridgeOutcome.failure "boom") exTCReminder).task) :=
  ⟨rfl, rfl, create_task_bridge_isolation 0 "a" exTCReminder 5 "boom" rfl rfl⟩

/-- C6: the bridge runs on every creation (on the created record), on an
update exactly when the update's `$set` touches `reminder_enabled` or
`reminder_time` (then on the updated record); and it requests reminder
creation exactly when the task has `reminder_enabled = true` and a
non-null `reminder_time`, carrying the task id, the title
`"Reminder: {title}"`, the derived message, the reminder time and the
due date. -/
theorem bridge_trigger_and_payload (now : Nat) (i : String) (tc : TaskCreate)
    (o : BridgeOutcome) (u : TaskUpdate) (t t2 t3 : Task) (rt : Nat)
    (h1 : t2.reminder_enabled = true) (h2 : t2.reminder_time = some rt)
    (h3 : t3.reminder_enabled = false ∨ t3.reminder_time = none) :
    (create_task now i o tc).request = bridgeRequest (createTaskRecord now i tc)
    ∧ (update_task now o u t).bridgeInvoked
        = (u.reminder_enabled.isSome || u.reminder_time.isSome)
    ∧ (update_task now o u t).request
        = (if u.reminder_enabled.isSome || u.reminder_time.isSome
            then bridgeRequest (applyTaskUpdate now u t) else none)
    ∧ bridgeRequest t2
        = some { task_id := t2.id
                 title := "Reminder: " ++ t2.title
                 message := "Task '" ++ t2.title ++ "' is due soon"
                 reminder_time := rt
                 task_due_date := t2.due_date }
    ∧ bridgeRequest t3 = none := by
  refine ⟨notify_request_eq o (createTaskRecord now i tc), ?_, ?_, ?_, ?_⟩
  · cases hc : (u.reminder_enabled.isSome || u.reminder_time.isSome) <;>
      simp [update_task, hc]
  · cases hc : (u.reminder_enabled.isSome || u.reminder_time.isSome) <;>
      simp [update_task, hc, notify_request_eq]
  · simp [bridgeRequest, h1, h2]
  · rcases h3 with h3 | h3
    · simp [bridgeRequest, h3]
    · cases he : t3.reminder_enabled <;> simp [bridgeRequest, he, h3]

/-- A concrete task with a reminder enabled at time 7. -/
def exTaskR : Task :=
  { id := "x", title := "T", description := none
    priority := TaskPriority.medium, category := none, due_date := some 9
    reminder_enabled := true, reminder_time := some 7
    status := TaskStatus.pending, created_at := 0, updated_at := 0
    completed_at := none }

/-- A concrete task with reminders disabled. -/
def exTaskNoR : Task :=
  { id := "y", title := "S", description := none
    priority := TaskPriority.medium, category := none, due_date := none
    reminder_enabled := false, reminder_time := none
    status := TaskStatus.pending, created_at := 0, updated_at := 0
    completed_at := none }

/-- A concrete `PUT /tasks/{id}` body that touches only `reminder_time`. -/
def exUpdReminder : TaskUpdate := { reminder_time := some (some 7) }

/-- Witness for C6 at concrete creation, update and task inputs. -/
theorem bridge_trigger_and_payload_witness :
    exTaskR.reminder_enabled = true
    ∧ exTaskR.reminder_time = some 7
    ∧ (exTaskNoR.reminder_enabled = false ∨ exTaskNoR.reminder_time = none)
    ∧ ((create_task 0 "a" BridgeOutcome.success { title := "T" }).request
          = bridgeRequest (createTaskRecord 0 "a" { title := "T" })
        ∧ (update_task 0 BridgeOutcome.success exUpdReminder exTaskR).bridgeInvoked
            = (exUpdReminder.reminder_enabled.isSome
              || exUpdReminder.reminder_time.isSome)
        ∧ (update_task 0 BridgeOutcome.success exUpdReminder exTaskR).request
            = (if exUpdReminder.reminder_enabled.isSome
                  || exUpdReminder.reminder_time.isSome
                then bridgeRequest (applyTaskUpdate 0 exUpdReminder exTaskR)
                else none)
        ∧ bridgeRequest exTaskR
            = some { task_id := exTaskR.id
                     title := "Reminder: " ++ exTaskR.title
                     message := "Task '" ++ exTaskR.title ++ "' is due soon"
                     reminder_time := 7
                     task_due_date := exTaskR.due_date }
        ∧ bridgeRequest exTaskNoR = none) :=
  ⟨rfl, rfl, Or.inl rfl,
    bridge_trigger_and_payload 0 "a" { title := "T" } BridgeOutcome.success
      exUpdReminder exTaskR exTaskR exTaskNoR 7 rfl rfl (Or.inl rfl)⟩

/-! ## Reminder updates, notification sending, completion rate -/

/-- The request body of `PUT /reminders/{id}` (`ReminderUpdate`), with the
same `exclude_unset` convention as `TaskUpdate`. -/
structure ReminderUpdate where
  title : Option String := none
  message : Option String := none
  reminder_time : Option Nat := none
  task_due_date : Option (Option Nat) := none
  status : Option NotificationStatus := none
deriving DecidableEq, Repr

/-- The `$set` performed by `update_reminder`: every field present in
`model_dump(exclude_unset=True)` overwrites the stored value — including
`status`, with no restriction on the transition — plus `updated_at = now`. -/
def applyReminderUpdate (now : Nat) (u : ReminderUpdate) (r : Reminder) : Reminder :=
  { r with
    title := u.title.getD r.title
    message := u.message.getD r.message
    reminder_time := u.reminder_time.getD r.reminder_time
    task_due_date := u.task_due_date.getD r.task_due_date
    status := u.status.getD r.status
    updated_at := now }

lemma isDue_eq_true_iff (now : Nat) (r : Reminder) :
    isDue now r = true
      ↔ r.reminder_time ≤ now ∧ r.status = NotificationStatus.pending := by
  simp [isDue]

/-- C7 counterexample: `update_reminder` applied to an already-sent
reminder with body `{"status": "pending"}` transitions its status back to
`pending` — `sent` is not terminal under the update endpoint. -/
theorem reminder_back_to_pending_counterexample :
    exReminder3.status = NotificationStatus.sent
    ∧ (applyReminderUpdate 5 { status := some NotificationStatus.pending }
          exReminder3).status = NotificationStatus.pending :=
  ⟨rfl, rfl⟩

/-- C7 amended: the Reconciler only ever transitions reminders from
`pending` (and only to `sent`): every non-pending document survives a pass
unchanged, and every document in the post-pass store is either an original
document or the sent version of a due pending original.  But
`update_reminder` enforces no transition discipline at all: it sets the
status to exactly whatever the request carries, so a `sent` or `cancelled`
reminder can be transitioned back to `pending` via `PUT`. -/
theorem reminder_status_transitions (now : Nat) (st : NotifStore)
    (u : ReminderUpdate) (r : Reminder)
    (h : (st.reminders.map Reminder.id).Nodup) :
    (∀ x ∈ st.reminders, x.status ≠ NotificationStatus.pending →
        x ∈ (check_due_reminders now st).1.reminders)
    ∧ (∀ x ∈ (check_due_reminders now st).1.reminders,
        x ∈ st.reminders
        ∨ (x.status = NotificationStatus.sent
            ∧ ∃ y ∈ st.reminders, y.status = NotificationStatus.pending
                ∧ y.reminder_time ≤ now ∧ x = markSent now y))
    ∧ (applyReminderUpdate now u r).status = u.status.getD r.status := by
  have hmap : (check_due_reminders now st).1.reminders
      = st.reminders.map (fun x => if isDue now x then markSent now x else x) := by
    show ((st.reminders.filter (isDue now)).foldl (processReminder now) st).reminders = _
    rw [foldl_processReminder_reminders]
    exact reconciler_reminders_map now st.reminders h
  refine ⟨?_, ?_, rfl⟩
  · intro x hx hst
    rw [hmap]
    have hdue : isDue now x = false := by
      cases hd : isDue now x
      · rfl
      · exact absurd ((isDue_eq_true_iff now x).mp hd).2 hst
    have := List.mem_map_of_mem
      (fun x => if isDue now x then markSent now x else x) hx
    simpa [hdue] using this
  · intro x hx
    rw [hmap] at hx
    obtain ⟨y, hy, hxy⟩ := List.mem_map.mp hx
    cases hd : isDue now y with
    | false =>
        left
        rw [hd] at hxy
        simpa using hxy ▸ hy
    | true =>
        right
        rw [hd] at hxy
        simp at hxy
        obtain ⟨hle, hpend⟩ := (isDue_eq_true_iff now y).mp hd
        exact ⟨by rw [← hxy]; rfl, y, hy, hpend, hle, hxy.symm⟩

/-- Witness for C7's amended theorem at the concrete mixed store. -/
theorem reminder_status_transitions_witness :
    (exStore.reminders.map Reminder.id).Nodup
    ∧ ((∀ x ∈ exStore.reminders, x.status ≠ NotificationStatus.pending →
          x ∈ (check_due_reminders 10 exStore).1.reminders)
        ∧ (∀ x ∈ (check_due_reminders 10 exStore).1.reminders,
            x ∈ exStore.reminders
            ∨ (x.status = NotificationStatus.sent
                ∧ ∃ y ∈ exStore.reminders, y.status = NotificationStatus.pending
                    ∧ y.reminder_time ≤ 10 ∧ x = markSent 10 y))
        ∧ (applyReminderUpdate 10 { status := some NotificationStatus.pending }
              exReminder3).status
            = (some NotificationStatus.pending).getD exReminder3.status) :=
  ⟨by decide, reminder_status_transitions 10 exStore
    { status := some NotificationStatus.pending } exReminder3 (by decide)⟩

/-- The request body of `POST /notifications/send` (`NotificationCreate`). -/
structure NotificationCreate where
  task_id : String
  title : String
  message : String
  notification_type : NotificationType := NotificationType.reminder
deriving DecidableEq, Repr

/-- `send_notification` (`POST /notifications/send`): insert the document
with `status = PENDING`, read it back and build the response object, hand
the object to the background delivery stub (which only prints — no store
effect), then update the stored document to `status = SENT` with `sent_at`
set, and return the object built BEFORE that update.  The collection is
append-only, so a document's list index serves as its unique `_id`;
`now` is the insertion-time clock reading, `sentAt` the later one used in
the status update. -/
def send_notification (now sentAt : Nat) (nc : NotificationCreate) (st : NotifStore) :
    NotifStore × NotificationRec :=
  let created : NotificationRec :=
    { task_id := nc.task_id, title := nc.title, message := nc.message
      notification_type := nc.notification_type
      status := NotificationStatus.pending, created_at := now, sent_at := none }
  let idx := st.notifications.length
  let st1 : NotifStore := { st with notifications := st.notifications ++ [created] }
  let notification_obj := created
  let sentDoc : NotificationRec :=
    { created with status := NotificationStatus.sent, sent_at := some sentAt }
  let st2 : NotifStore := { st1 with notifications := st1.notifications.set idx sentDoc }
  (st2, notification_obj)

lemma set_append_singleton_get {α : Type} (b : α) :
    ∀ (l : List α) (a : α), ((l ++ [a]).set l.length b).get? l.length = some b
  | [], _ => rfl
  | x :: xs, a => by
      show ((xs ++ [a]).set xs.length b).get? xs.length = some b
      exact set_append_singleton_get b xs a

/-- C10: for every `POST /notifications/send`, the stored document ends up
with `status = sent` and `sent_at` set, but the HTTP response carries the
object serialised before the status update: its status is always `pending`
with no `sent_at`, and thus never equals the stored final status. -/
theorem send_notification_response_stale (now sentAt : Nat)
    (nc : NotificationCreate) (st : NotifStore) :
    (send_notification now sentAt nc st).2
        = { task_id := nc.task_id, title := nc.title, message := nc.message
            notification_type := nc.notification_type
            status := NotificationStatus.pending, created_at := now, sent_at := none }
    ∧ (send_notification now sentAt nc st).1.notifications.get? st.notifications.length
        = some { task_id := nc.task_id, title := nc.title, message := nc.message
                 notification_type := nc.notification_type
                 status := NotificationStatus.sent, created_at := now
                 sent_at := some sentAt }
    ∧ (send_notification now sentAt nc st).2.status ≠ NotificationStatus.sent := by
  refine ⟨rfl, ?_, by simp [send_notification]⟩
  exact set_append_singleton_get _ st.notifications _

/-- A concrete `POST /notifications/send` body. -/
def exNC : NotificationCreate := { task_id := "t", title := "n", message := "m" }

/-- Witness for C10 at a concrete send request against the empty store. -/
theorem send_notification_response_stale_witness :
    (send_notification 1 2 exNC { reminders := [], notifications := [] }).2
        = { task_id := exNC.task_id, title := exNC.title, message := exNC.message
            notification_type := exNC.notification_type
            status := NotificationStatus.pending, created_at := 1, sent_at := none }
    ∧ (send_notification 1 2 exNC
          { reminders := [], notifications := [] }).1.notifications.get?
          ({ reminders := [], notifications := [] } : NotifStore).notifications.length
        = some { task_id := exNC.task_id, title := exNC.title, message := exNC.message
                 notification_type := exNC.notification_type
                 status := NotificationStatus.sent, created_at := 1, sent_at := some 2 }
    ∧ (send_notification 1 2 exNC { reminders := [], notifications := [] }).2.status
        ≠ NotificationStatus.sent :=
  send_notification_response_stale 1 2 exNC { reminders := [], notifications := [] }

/-- `completion_rate` from frontend-service/app.py:
`(stats['completed_tasks'] / stats['total_tasks'] * 100) if stats['total_tasks'] > 0 else 0`.
Python's float arithmetic on these small integer ratios is modelled
exactly over `ℚ`. -/
def completion_rate (completed_tasks total_tasks : Nat) : ℚ :=
  if total_tasks > 0 then (completed_tasks : ℚ) / (total_tasks : ℚ) * 100 else 0

/-- The `f"{completion_rate:.1f}%"` display: the rate rounded to one
decimal place. -/
def displayOneDecimal (q : ℚ) : ℚ := (round (q * 10) : ℤ) / 10

/-- C9: the displayed completion rate is 0 when `total_tasks = 0`,
otherwise `completed/total × 100` rounded to one decimal for display;
10 tasks with 3 completed display as 30.0. -/
theorem completion_rate_boundary (c t : Nat) (h : 0 < t) :
    completion_rate c 0 = 0
    ∧ completion_rate c t = (c : ℚ) / (t : ℚ) * 100
    ∧ displayOneDecimal (completion_rate 3 10) = 30 := by
  refine ⟨by simp [completion_rate], by simp [completion_rate, h], ?_⟩
  norm_num [completion_rate, displayOneDecimal]

/-- Witness for C9 with 10 tasks, 3 completed. -/
theorem completion_rate_boundary_witness :
    0 < 10
    ∧ (completion_rate 3 0 = 0
        ∧ completion_rate 3 10 = (3 : ℚ) / (10 : ℚ) * 100
        ∧ displayOneDecimal (completion_rate 3 10) = 30) :=
  ⟨by decide, completion_rate_boundary 3 10 (by decide)⟩

end ScalableProject
